import Mathlib

/-!
Shallow embedding of `compliance_filter.py` (BPI Challenge 2019 compliance
filtering) and verification of its specification claims.

Cases are ordered lists of events plus case-level attributes; monetary
amounts are modelled as rationals; Python dictionaries become association
lists with first-match lookup.
-/

namespace ComplianceFilter

/-- A case-attribute value as stored in the attribute dictionary
(strings, numbers and booleans occur in XES logs). -/
inductive AttrVal where
  | str (s : String)
  | num (q : ℚ)
  | bool (b : Bool)
deriving DecidableEq

/-- Python `str()` applied to an attribute value, as used by the flag checks
`str(attributes.get(key, default)).lower() == ...`.  The rendering of a
number is not Python's exact float formatting; no theorem depends on it —
only on the fact that flag comparisons inspect the resulting string. -/
def pyStr : AttrVal → String
  | .str s => s
  | .num q => toString q.num ++ "/" ++ toString q.den
  | .bool b => if b then "True" else "False"

/-- Python numeric coercion of an attribute value used as `PO item value`.
A string value here would raise `TypeError` downstream in Python; it is
mapped to 0, a corner no theorem or counterexample relies on. -/
def attrToRat : AttrVal → ℚ
  | .str _ => 0
  | .num q => q
  | .bool b => if b then 1 else 0

/-- One event of a case: the `concept:name` field (optional) and the
`Cumulative net worth (EUR)` numeric field (optional). These are the only
event fields the compliance code reads. -/
structure Event where
  conceptName : Option String
  cumulativeNetWorth : Option ℚ
deriving DecidableEq

/-- One case: its ordered events and its case-level attribute dictionary. -/
structure Case where
  events : List Event
  attributes : List (String × AttrVal)
deriving DecidableEq

/-- `get_activity_names`: the `concept:name` of each event that has one. -/
def get_activity_names (c : Case) : List String :=
  c.events.filterMap (·.conceptName)

/-- Case-insensitive view of a string, as Python's `s.lower()` over its
characters. -/
def lowerChars (s : String) : List Char :=
  s.data.map Char.toLower

/-- Python's substring test `p in s` on lists of characters. -/
def isSubstr (p s : List Char) : Bool :=
  (List.range (s.length + 1)).any fun i => p.isPrefixOf (s.drop i)

/-- One pattern matching one activity: `pattern.lower() in activity.lower()`. -/
def patternMatches (pattern activity : String) : Bool :=
  isSubstr (lowerChars pattern) (lowerChars activity)

/-- `has_activity_pattern`: some activity matches some pattern. -/
def has_activity_pattern (activities patterns : List String) : Bool :=
  activities.any fun activity => patterns.any fun pattern =>
    patternMatches pattern activity

/-- `get_activity_positions`: 0-based indices of activities matching any
pattern. -/
def get_activity_positions (activities patterns : List String) : List Nat :=
  (activities.enum.filter fun p => patterns.any fun pattern =>
    patternMatches pattern p.2).map Prod.fst

/-- `count_activity_occurrences`: how many activities match any pattern. -/
def count_activity_occurrences (activities patterns : List String) : Nat :=
  (activities.filter fun activity => patterns.any fun pattern =>
    patternMatches pattern activity).length

/-- `check_sequence_constraint`: vacuously true when either pattern set has
no matching position, otherwise the last first-pattern match must precede
the first second-pattern match. -/
def check_sequence_constraint
    (activities first_patterns second_patterns : List String) : Bool :=
  let first_positions := get_activity_positions activities first_patterns
  let second_positions := get_activity_positions activities second_patterns
  match first_positions.max?, second_positions.min? with
  | some max_first, some min_second => max_first < min_second
  | _, _ => true

/-- `get_case_attributes`. -/
def get_case_attributes (c : Case) : List (String × AttrVal) :=
  c.attributes

/-- `get_cumulative_values`: the `Cumulative net worth (EUR)` values of the
events that carry one, in case order. -/
def get_cumulative_values (c : Case) : List ℚ :=
  c.events.filterMap (·.cumulativeNetWorth)

/-- `get_po_item_value`: the `PO item value` attribute if present, else the
first cumulative value, else 0. -/
def get_po_item_value (c : Case) : ℚ :=
  match (get_case_attributes c).lookup "PO item value" with
  | some v => attrToRat v
  | none =>
    match get_cumulative_values c with
    | [] => 0
    | v :: _ => v

/-- `str(attributes.get(key, default)).lower()`: the lower-cased character
sequence of an attribute's string form, falling back to the given default
string.  The flag checks compare it against `"true".data` / `"false".data`. -/
def attr_flag (attributes : List (String × AttrVal)) (key dflt : String) :
    List Char :=
  lowerChars (pyStr ((attributes.lookup key).getD (AttrVal.str dflt)))

/-- `ACTIVITY_PATTERNS["goods_receipt"]`. -/
def goods_receipt_patterns : List String := ["Record Goods Receipt"]

/-- `ACTIVITY_PATTERNS["invoice_receipt"]`. -/
def invoice_receipt_patterns : List String := ["Record Invoice Receipt"]

/-- `ACTIVITY_PATTERNS["set_payment_block"]`. -/
def set_payment_block_patterns : List String := ["Set Payment Block"]

/-- `ACTIVITY_PATTERNS["payment_block_removed"]`. -/
def payment_block_removed_patterns : List String := ["Remove Payment Block"]

/-- `check_3way_value_compliance`: value-consistency violations shared by the
two 3-way rule sets. -/
def check_3way_value_compliance (c : Case) : List String :=
  let activities := get_activity_names c
  let po_item_value := get_po_item_value c
  let invoice_count := count_activity_occurrences activities invoice_receipt_patterns
  let gr_count := count_activity_occurrences activities goods_receipt_patterns
  if invoice_count = 0 then
    ["No invoice receipts found for value validation"]
  else if gr_count = 0 then
    ["No goods receipts found for value validation"]
  else
    let count_violations :=
      if gr_count ≠ invoice_count then
        ["Number of goods receipts does not equal number of invoice receipts"]
      else []
    let cumulative_values := get_cumulative_values c
    if cumulative_values.isEmpty then
      count_violations ++ ["No cumulative values found for validation"]
    else
      let final_cumulative_value := cumulative_values.getLastD 0
      let expected_po_value := final_cumulative_value / (invoice_count : ℚ)
      count_violations ++
        (if 0 < invoice_count ∧ |po_item_value - expected_po_value| > 1 / 100 then
          ["PO item value does not match expected value from invoice receipts"]
        else []) ++
        (if po_item_value = 0 then
          ["PO item value is zero, which may indicate invalid data"]
        else []) ++
        (if final_cumulative_value = 0 ∧ po_item_value ≠ 0 then
          ["Cumulative value is zero but PO item value is non-zero"]
        else [])

/-- `check_2way_value_compliance`: value-consistency violations for 2-way
match cases. -/
def check_2way_value_compliance (c : Case) : List String :=
  let po_item_value := get_po_item_value c
  let cumulative_values := get_cumulative_values c
  if cumulative_values.isEmpty then
    ["No cumulative values found for validation"]
  else
    let final_cumulative_value := cumulative_values.getLastD 0
    (if |po_item_value - final_cumulative_value| > 1 / 100 then
      ["Invoice value does not match PO item value"]
    else []) ++
    (if po_item_value = 0 then
      ["PO item value is zero, which may indicate invalid data"]
    else []) ++
    (if final_cumulative_value = 0 ∧ po_item_value ≠ 0 then
      ["Invoice value is zero but PO item value is non-zero"]
    else [])

/-- The shared return convention of every checker:
`if violations: return False, violations` / `return True, ["Compliant"]`. -/
def verdict_of (violations : List String) : Bool × List String :=
  if violations.isEmpty then (true, ["Compliant"]) else (false, violations)

/-- The violations accumulated by `check_3way_after_compliance` before its
final return. -/
def after_violations (c : Case) : List String :=
  let activities := get_activity_names c
  let attributes := get_case_attributes c
  (if !has_activity_pattern activities goods_receipt_patterns then
    ["Missing goods receipt activity"]
  else []) ++
  (if !has_activity_pattern activities invoice_receipt_patterns then
    ["Missing invoice receipt activity"]
  else []) ++
  (if !check_sequence_constraint activities goods_receipt_patterns
      invoice_receipt_patterns then
    ["Invoice received before goods receipt"]
  else []) ++
  (if attr_flag attributes "GR-Based Inv. Verif." "true" ≠ "true".data then
    ["GR-based invoice verification flag is not set to true"]
  else []) ++
  (if attr_flag attributes "Goods Receipt" "true" ≠ "true".data then
    ["Goods receipt flag is not set to true"]
  else []) ++
  check_3way_value_compliance c

/-- `check_3way_after_compliance`: 3-way match, invoice after goods receipt. -/
def check_3way_after_compliance (c : Case) : Bool × List String :=
  verdict_of (after_violations c)

/-- The violations accumulated by `check_3way_before_compliance` before its
final return.  Rules 5 and 7 of the source docstring (payment block set, and
set-before-removed sequencing) are commented out in the source and therefore
absent here. -/
def before_violations (c : Case) : List String :=
  let activities := get_activity_names c
  let attributes := get_case_attributes c
  (if !has_activity_pattern activities goods_receipt_patterns then
    ["Missing goods receipt activity"]
  else []) ++
  (if !has_activity_pattern activities invoice_receipt_patterns then
    ["Missing invoice receipt activity"]
  else []) ++
  (if attr_flag attributes "GR-based Inv. Verif." "false" ≠ "false".data then
    ["GR-based invoice verification flag is not set to false"]
  else []) ++
  (if attr_flag attributes "Goods Receipt" "true" ≠ "true".data then
    ["Goods receipt flag is not set to true"]
  else []) ++
  (if !has_activity_pattern activities payment_block_removed_patterns then
    ["Payment block was not removed, which is not allowed"]
  else []) ++
  (if !check_sequence_constraint activities goods_receipt_patterns
      payment_block_removed_patterns then
    ["Payment block was removed before goods receipt"]
  else []) ++
  check_3way_value_compliance c

/-- `check_3way_before_compliance`: 3-way match, invoice before goods
receipt. -/
def check_3way_before_compliance (c : Case) : Bool × List String :=
  verdict_of (before_violations c)

/-- The violations accumulated by `check_2way_compliance`. -/
def twoway_violations (c : Case) : List String :=
  let activities := get_activity_names c
  let attributes := get_case_attributes c
  (if !has_activity_pattern activities invoice_receipt_patterns then
    ["Missing invoice receipt activity"]
  else []) ++
  (if attr_flag attributes "GR-based Inv. Verif." "false" ≠ "false".data then
    ["GR-based invoice verification flag is not set to false"]
  else []) ++
  (if attr_flag attributes "Goods Receipt" "false" ≠ "false".data then
    ["Goods receipt flag is not set to false"]
  else []) ++
  check_2way_value_compliance c

/-- `check_2way_compliance`: 2-way match cases. -/
def check_2way_compliance (c : Case) : Bool × List String :=
  verdict_of (twoway_violations c)

/-- The violations accumulated by `check_consignment_compliance`. -/
def consignment_violations (c : Case) : List String :=
  let activities := get_activity_names c
  let attributes := get_case_attributes c
  (if !has_activity_pattern activities goods_receipt_patterns then
    ["Missing goods receipt activity"]
  else []) ++
  (if attr_flag attributes "GR-based Inv. Verif." "false" ≠ "false".data then
    ["GR-based invoice verification flag is not set to false"]
  else []) ++
  (if attr_flag attributes "Goods Receipt" "true" ≠ "true".data then
    ["Goods receipt flag is not set to true"]
  else []) ++
  (if has_activity_pattern activities invoice_receipt_patterns then
    ["Invoice receipt activity found at purchase order level, which is not allowed for consignment"]
  else [])

/-- `check_consignment_compliance`: consignment cases. -/
def check_consignment_compliance (c : Case) : Bool × List String :=
  verdict_of (consignment_violations c)

/-- The per-category statistics dictionary built by
`filter_compliance_by_category`.  The two reason `Counter`s are modelled as
multisets of reason strings (a count is the number of occurrences). -/
structure ComplianceStats where
  total_cases : Nat
  compliant_cases : Nat
  non_compliant_cases : Nat
  compliance_reasons : List String
  non_compliance_reasons : List String
deriving DecidableEq

/-- The `compliance_checkers` dispatch dictionary: `Some` checker for the
four recognized category names, `none` otherwise. -/
def compliance_checkers (category_name : String) :
    Option (Case → Bool × List String) :=
  if category_name = "3_way_after" then some check_3way_after_compliance
  else if category_name = "3_way_before" then some check_3way_before_compliance
  else if category_name = "2_way" then some check_2way_compliance
  else if category_name = "consignment" then some check_consignment_compliance
  else none

/-- One iteration of the per-case loop of `filter_compliance_by_category`. -/
def filter_step (checker : Case → Bool × List String)
    (acc : List Case × List Case × ComplianceStats) (c : Case) :
    List Case × List Case × ComplianceStats :=
  let (compliant_cases, non_compliant_cases, stats) := acc
  let (is_compliant, reasons) := checker c
  if is_compliant then
    (compliant_cases ++ [c], non_compliant_cases,
      { stats with
        compliant_cases := stats.compliant_cases + 1
        compliance_reasons := stats.compliance_reasons ++ reasons })
  else
    (compliant_cases, non_compliant_cases ++ [c],
      { stats with
        non_compliant_cases := stats.non_compliant_cases + 1
        non_compliance_reasons := stats.non_compliance_reasons ++ reasons })

/-- `filter_compliance_by_category`: split a log (a list of cases) into
compliant and non-compliant cases and tally statistics.  When the category
is not recognized the source logs an error and returns the input log, an
empty log and the untouched statistics — it raises nothing. -/
def filter_compliance_by_category (log : List Case) (category_name : String) :
    List Case × List Case × ComplianceStats :=
  let compliance_stats : ComplianceStats :=
    { total_cases := log.length
      compliant_cases := 0
      non_compliant_cases := 0
      compliance_reasons := []
      non_compliance_reasons := [] }
  match compliance_checkers category_name with
  | none => (log, [], compliance_stats)
  | some checker => log.foldl (filter_step checker) ([], [], compliance_stats)

/-- Division of a rational by a count, guarded against a zero denominator:
`none` exactly when the denominator is zero. -/
def qdiv? (x : ℚ) (n : Nat) : Option ℚ :=
  if n = 0 then none else some (x / (n : ℚ))

/-- `check_3way_value_compliance` with its division routed through `qdiv?`:
the result is `none` exactly when the source expression
`final_cumulative_value / invoice_count` would divide by zero. -/
def check_3way_value_compliance_checked (c : Case) : Option (List String) :=
  let activities := get_activity_names c
  let po_item_value := get_po_item_value c
  let invoice_count := count_activity_occurrences activities invoice_receipt_patterns
  let gr_count := count_activity_occurrences activities goods_receipt_patterns
  if invoice_count = 0 then
    some ["No invoice receipts found for value validation"]
  else if gr_count = 0 then
    some ["No goods receipts found for value validation"]
  else
    let count_violations :=
      if gr_count ≠ invoice_count then
        ["Number of goods receipts does not equal number of invoice receipts"]
      else []
    let cumulative_values := get_cumulative_values c
    if cumulative_values.isEmpty then
      some (count_violations ++ ["No cumulative values found for validation"])
    else
      let final_cumulative_value := cumulative_values.getLastD 0
      match qdiv? final_cumulative_value invoice_count with
      | none => none
      | some expected_po_value =>
        some (count_violations ++
          (if 0 < invoice_count ∧ |po_item_value - expected_po_value| > 1 / 100 then
            ["PO item value does not match expected value from invoice receipts"]
          else []) ++
          (if po_item_value = 0 then
            ["PO item value is zero, which may indicate invalid data"]
          else []) ++
          (if final_cumulative_value = 0 ∧ po_item_value ≠ 0 then
            ["Cumulative value is zero but PO item value is non-zero"]
          else []))

/-- A case with no events and no attributes. -/
def sample_case : Case :=
  { events := [], attributes := [] }

/-- A consignment case holding both a goods-receipt and an invoice-receipt
activity. -/
def consignment_case : Case :=
  { events := [⟨some "Record Goods Receipt", none⟩,
               ⟨some "Record Invoice Receipt", none⟩],
    attributes := [] }

/-- A consignment case holding only a goods-receipt activity: compliant. -/
def compliant_consignment_case : Case :=
  { events := [⟨some "Record Goods Receipt", none⟩], attributes := [] }

/-- A case whose attributes contain the lowercase-b key
`GR-based Inv. Verif.` (with value `"true"`) but not the capital-B key
`GR-Based Inv. Verif.`. -/
def lowercase_key_case : Case :=
  { events := [], attributes := [("GR-based Inv. Verif.", .str "true")] }

/-- A 3-way case with two goods receipts, two invoice receipts, final
cumulative value 100, and the given `PO item value` attribute. -/
def value_case (po : ℚ) : Case :=
  { events := [⟨some "Record Goods Receipt", some 50⟩,
               ⟨some "Record Goods Receipt", some 100⟩,
               ⟨some "Record Invoice Receipt", none⟩,
               ⟨some "Record Invoice Receipt", none⟩],
    attributes := [("PO item value", .num po)] }

/-- A case holding only an invoice-receipt activity (no goods receipt),
used to exercise the vacuous branch of `check_sequence_constraint`. -/
def invoice_only_names : List String := ["Record Invoice Receipt"]

/-- Activity names with a goods receipt followed by an invoice receipt. -/
def gr_then_ir_names : List String :=
  ["Record Goods Receipt", "Record Invoice Receipt"]

/-! ## Helper lemmas -/

theorem mem_ite_nil_iff {α : Type} {p : Prop} [Decidable p] {l : List α}
    {v : α} : (v ∈ if p then l else []) ↔ p ∧ v ∈ l := by
  split <;> simp_all

theorem isPrefixOf_iff : ∀ {p s : List Char},
    p.isPrefixOf s = true ↔ ∃ t, p ++ t = s := by
  intro p
  induction p with
  | nil => intro s; simp [List.isPrefixOf]
  | cons a p ih =>
    intro s
    cases s with
    | nil => simp [List.isPrefixOf]
    | cons b s => simp [List.isPrefixOf, ih, and_assoc]

theorem isSubstr_iff {p s : List Char} :
    isSubstr p s = true ↔ ∃ l r, s = l ++ p ++ r := by
  unfold isSubstr
  rw [List.any_eq_true]
  constructor
  · rintro ⟨i, _, hpre⟩
    obtain ⟨r, hr⟩ := isPrefixOf_iff.mp hpre
    refine ⟨s.take i, r, ?_⟩
    conv_lhs => rw [← List.take_append_drop i s]
    rw [← hr, List.append_assoc]
  · rintro ⟨l, r, rfl⟩
    refine ⟨l.length, ?_, ?_⟩
    · rw [List.mem_range]
      simp [List.length_append]
      omega
    · rw [isPrefixOf_iff]
      refine ⟨r, ?_⟩
      rw [List.append_assoc, List.drop_left]

theorem verdict_of_empty : verdict_of [] = (true, ["Compliant"]) := rfl

theorem verdict_of_nonempty {vs : List String} (h : vs ≠ []) :
    verdict_of vs = (false, vs) := by
  unfold verdict_of
  rw [if_neg]
  simp [h]

theorem mem_check_3way_value_compliance {c : Case} {v : String}
    (h : v ∈ check_3way_value_compliance c) :
    v ∈ ["No invoice receipts found for value validation",
         "No goods receipts found for value validation",
         "Number of goods receipts does not equal number of invoice receipts",
         "No cumulative values found for validation",
         "PO item value does not match expected value from invoice receipts",
         "PO item value is zero, which may indicate invalid data",
         "Cumulative value is zero but PO item value is non-zero"] := by
  simp only [check_3way_value_compliance] at h
  split_ifs at h <;>
    simp only [List.mem_append, mem_ite_nil_iff, List.mem_singleton,
      List.mem_cons, List.not_mem_nil, or_false] at h ⊢ <;>
    aesop

theorem mem_check_2way_value_compliance {c : Case} {v : String}
    (h : v ∈ check_2way_value_compliance c) :
    v ∈ ["No cumulative values found for validation",
         "Invoice value does not match PO item value",
         "PO item value is zero, which may indicate invalid data",
         "Invoice value is zero but PO item value is non-zero"] := by
  simp only [check_2way_value_compliance] at h
  split_ifs at h <;>
    simp only [List.mem_append, mem_ite_nil_iff, List.mem_singleton,
      List.mem_cons, List.not_mem_nil, or_false] at h ⊢ <;>
    aesop

theorem mem_verdict_of {vs : List String} {v : String}
    (h : v ∈ (verdict_of vs).2) : v = "Compliant" ∨ v ∈ vs := by
  unfold verdict_of at h
  split at h
  · simp only [List.mem_singleton] at h
    exact Or.inl h
  · exact Or.inr h

theorem mem_after_violations {c : Case} {v : String}
    (h : v ∈ after_violations c) :
    v ∈ ["Missing goods receipt activity",
         "Missing invoice receipt activity",
         "Invoice received before goods receipt",
         "GR-based invoice verification flag is not set to true",
         "Goods receipt flag is not set to true"] ∨
      v ∈ check_3way_value_compliance c := by
  simp only [after_violations, List.mem_append, mem_ite_nil_iff,
    List.mem_singleton] at h
  simp only [List.mem_cons, List.not_mem_nil, or_false]
  aesop

theorem mem_before_violations {c : Case} {v : String}
    (h : v ∈ before_violations c) :
    v ∈ ["Missing goods receipt activity",
         "Missing invoice receipt activity",
         "GR-based invoice verification flag is not set to false",
         "Goods receipt flag is not set to true",
         "Payment block was not removed, which is not allowed",
         "Payment block was removed before goods receipt"] ∨
      v ∈ check_3way_value_compliance c := by
  simp only [before_violations, List.mem_append, mem_ite_nil_iff,
    List.mem_singleton] at h
  simp only [List.mem_cons, List.not_mem_nil, or_false]
  aesop

theorem mem_twoway_violations {c : Case} {v : String}
    (h : v ∈ twoway_violations c) :
    v ∈ ["Missing invoice receipt activity",
         "GR-based invoice verification flag is not set to false",
         "Goods receipt flag is not set to false"] ∨
      v ∈ check_2way_value_compliance c := by
  simp only [twoway_violations, List.mem_append, mem_ite_nil_iff,
    List.mem_singleton] at h
  simp only [List.mem_cons, List.not_mem_nil, or_false]
  aesop

theorem mem_consignment_violations {c : Case} {v : String}
    (h : v ∈ consignment_violations c) :
    v ∈ ["Missing goods receipt activity",
         "GR-based invoice verification flag is not set to false",
         "Goods receipt flag is not set to true",
         "Invoice receipt activity found at purchase order level, which is not allowed for consignment"] := by
  simp only [consignment_violations, List.mem_append, mem_ite_nil_iff,
    List.mem_singleton] at h
  simp only [List.mem_cons, List.not_mem_nil, or_false]
  aesop

theorem compliant_not_mem_3way_value (c : Case) :
    "Compliant" ∉ check_3way_value_compliance c := by
  intro h
  have := mem_check_3way_value_compliance h
  simp at this

theorem compliant_not_mem_2way_value (c : Case) :
    "Compliant" ∉ check_2way_value_compliance c := by
  intro h
  have := mem_check_2way_value_compliance h
  simp at this

theorem compliant_not_mem_after (c : Case) :
    "Compliant" ∉ after_violations c := by
  intro h
  rcases mem_after_violations h with h | h
  · simp at h
  · exact compliant_not_mem_3way_value c h

theorem compliant_not_mem_before (c : Case) :
    "Compliant" ∉ before_violations c := by
  intro h
  rcases mem_before_violations h with h | h
  · simp at h
  · exact compliant_not_mem_3way_value c h

theorem compliant_not_mem_twoway (c : Case) :
    "Compliant" ∉ twoway_violations c := by
  intro h
  rcases mem_twoway_violations h with h | h
  · simp at h
  · exact compliant_not_mem_2way_value c h

theorem compliant_not_mem_consignment (c : Case) :
    "Compliant" ∉ consignment_violations c := by
  intro h
  have := mem_consignment_violations h
  simp at this

theorem verdict_shape {vs : List String} (h : "Compliant" ∉ vs) :
    ((verdict_of vs).1 = true ↔ (verdict_of vs).2 = ["Compliant"]) ∧
      (verdict_of vs).2 ≠ [] := by
  rcases eq_or_ne vs [] with rfl | hne
  · simp [verdict_of_empty]
  · rw [verdict_of_nonempty hne]
    refine ⟨⟨fun hf => absurd hf (by simp), fun hvs => ?_⟩, hne⟩
    have hvs' : vs = ["Compliant"] := hvs
    exact absurd (hvs' ▸ List.mem_singleton_self "Compliant") h

/-! ## Claim theorems -/

/-- C3: `check_sequence_constraint` returns true when either pattern set has
zero matching positions in the activity list (vacuous satisfaction), and
otherwise returns true iff the maximum 0-based index of a first-pattern
match is strictly less than the minimum 0-based index of a second-pattern
match. -/
theorem check_sequence_constraint_spec
    (activities first_patterns second_patterns : List String) :
    ((get_activity_positions activities first_patterns = [] ∨
      get_activity_positions activities second_patterns = []) →
      check_sequence_constraint activities first_patterns second_patterns
        = true) ∧
    ∀ mf ms : Nat,
      mf ∈ get_activity_positions activities first_patterns →
      (∀ i ∈ get_activity_positions activities first_patterns, i ≤ mf) →
      ms ∈ get_activity_positions activities second_patterns →
      (∀ i ∈ get_activity_positions activities second_patterns, ms ≤ i) →
      (check_sequence_constraint activities first_patterns second_patterns
          = true ↔ mf < ms) := by
  constructor
  · intro h
    rcases h with h | h <;> simp [check_sequence_constraint, h]
  · intro mf ms hmem hmax hmem2 hmin
    simp only [check_sequence_constraint]
    rw [List.max?_eq_some_iff'.mpr ⟨hmem, hmax⟩,
      List.min?_eq_some_iff'.mpr ⟨hmem2, hmin⟩]
    simp

/-- Witness for C3: with only an invoice receipt the goods-receipt pattern
has no position and the constraint holds vacuously; with a goods receipt at
index 0 followed by an invoice receipt at index 1 the constraint reduces to
`0 < 1`. -/
theorem check_sequence_constraint_spec_witness :
    check_sequence_constraint invoice_only_names goods_receipt_patterns
      invoice_receipt_patterns = true ∧
    (check_sequence_constraint gr_then_ir_names goods_receipt_patterns
        invoice_receipt_patterns = true ↔ 0 < 1) :=
  ⟨(check_sequence_constraint_spec invoice_only_names goods_receipt_patterns
      invoice_receipt_patterns).1 (Or.inl (by decide)),
   (check_sequence_constraint_spec gr_then_ir_names goods_receipt_patterns
      invoice_receipt_patterns).2 0 1 (by decide) (by decide) (by decide)
      (by decide)⟩

/-- C7: `has_activity_pattern` returns true iff some activity name contains
some pattern as a case-insensitive substring; in particular
`["Record Goods Receipt for Item X"]` matches pattern
`"Record Goods Receipt"` although the strings are not equal. -/
theorem has_activity_pattern_substring_spec :
    (∀ activities patterns : List String,
      has_activity_pattern activities patterns = true ↔
        ∃ a ∈ activities, ∃ p ∈ patterns,
          ∃ l r, lowerChars a = l ++ lowerChars p ++ r) ∧
    has_activity_pattern ["Record Goods Receipt for Item X"]
      ["Record Goods Receipt"] = true ∧
    "Record Goods Receipt for Item X" ≠ "Record Goods Receipt" := by
  refine ⟨?_, by decide, by decide⟩
  intro activities patterns
  unfold has_activity_pattern
  rw [List.any_eq_true]
  constructor
  · rintro ⟨a, ha, hp⟩
    rw [List.any_eq_true] at hp
    obtain ⟨p, hpmem, hm⟩ := hp
    simp only [patternMatches] at hm
    exact ⟨a, ha, p, hpmem, isSubstr_iff.mp hm⟩
  · rintro ⟨a, ha, p, hpmem, hsub⟩
    refine ⟨a, ha, ?_⟩
    rw [List.any_eq_true]
    refine ⟨p, hpmem, ?_⟩
    simp only [patternMatches]
    exact isSubstr_iff.mpr hsub

/-- C6: under the consignment checker, any case with an invoice-receipt
activity is non-compliant with the invoice-receipt-at-PO-level violation;
a concrete case holding both a goods receipt and an invoice receipt gets
exactly that verdict, and the violation string starts with
"Invoice receipt activity found at purchase order level". -/
theorem consignment_invoice_violation :
    (∀ c : Case,
      has_activity_pattern (get_activity_names c) invoice_receipt_patterns
        = true →
      (check_consignment_compliance c).1 = false ∧
      "Invoice receipt activity found at purchase order level, which is not allowed for consignment"
        ∈ (check_consignment_compliance c).2) ∧
    check_consignment_compliance consignment_case =
      (false,
       ["Invoice receipt activity found at purchase order level, which is not allowed for consignment"]) ∧
    List.isPrefixOf
      "Invoice receipt activity found at purchase order level".data
      "Invoice receipt activity found at purchase order level, which is not allowed for consignment".data
      = true := by
  refine ⟨?_, by decide, by decide⟩
  intro c h
  have hmem : "Invoice receipt activity found at purchase order level, which is not allowed for consignment"
      ∈ consignment_violations c := by
    simp only [consignment_violations, List.mem_append, mem_ite_nil_iff,
      List.mem_singleton]
    simp [h]
  have hne : consignment_violations c ≠ [] := List.ne_nil_of_mem hmem
  unfold check_consignment_compliance
  rw [verdict_of_nonempty hne]
  exact ⟨rfl, hmem⟩

/-- Witness for C6: the concrete two-activity consignment case instantiates
the universal part. -/
theorem consignment_invoice_violation_witness :
    (check_consignment_compliance consignment_case).1 = false ∧
    "Invoice receipt activity found at purchase order level, which is not allowed for consignment"
      ∈ (check_consignment_compliance consignment_case).2 :=
  consignment_invoice_violation.1 consignment_case (by decide)

/-- C2 (amended): for every case and every recognized category, the
checker's verdict has a never-empty violations list, and `is_compliant` is
true iff the list is exactly `["Compliant"]`.  (The original "empty iff
compliant" direction fails: a compliant verdict carries `["Compliant"]`,
which has length 1.) -/
theorem checker_verdict_shape :
    ∀ (category_name : String) (checker : Case → Bool × List String)
      (c : Case),
      compliance_checkers category_name = some checker →
      ((checker c).1 = true ↔ (checker c).2 = ["Compliant"]) ∧
        (checker c).2 ≠ [] := by
  intro category_name checker c hc
  unfold compliance_checkers at hc
  split_ifs at hc
  · obtain rfl := Option.some.inj hc
    exact verdict_shape (compliant_not_mem_after c)
  · obtain rfl := Option.some.inj hc
    exact verdict_shape (compliant_not_mem_before c)
  · obtain rfl := Option.some.inj hc
    exact verdict_shape (compliant_not_mem_twoway c)
  · obtain rfl := Option.some.inj hc
    exact verdict_shape (compliant_not_mem_consignment c)

/-- Counterexample to C2 as stated: a compliant consignment verdict has
`is_compliant = true` while its violations list is `["Compliant"]`, which
is not empty — so "violations is empty iff is_compliant" is false. -/
theorem checker_verdict_empty_iff_counterexample :
    (check_consignment_compliance compliant_consignment_case).1 = true ∧
    (check_consignment_compliance compliant_consignment_case).2
      = ["Compliant"] ∧
    (check_consignment_compliance compliant_consignment_case).2 ≠ [] := by
  decide

/-- Witness for C2: the consignment checker applied to the compliant
one-activity case. -/
theorem checker_verdict_shape_witness :
    ((check_consignment_compliance compliant_consignment_case).1 = true ↔
      (check_consignment_compliance compliant_consignment_case).2
        = ["Compliant"]) ∧
    (check_consignment_compliance compliant_consignment_case).2 ≠ [] :=
  checker_verdict_shape "consignment" check_consignment_compliance
    compliant_consignment_case rfl

/-- C5: under 3_way_before the only payment-block checks enforced are the
removal-presence check and the goods-receipt-before-removal sequencing
check; every violation string a verdict can carry comes from a fixed set
that contains no reason about a missing or mis-ordered "Set Payment
Block". -/
theorem before_payment_block_checks :
    ∀ c : Case,
      ("Payment block was not removed, which is not allowed"
          ∈ before_violations c ↔
        has_activity_pattern (get_activity_names c)
          payment_block_removed_patterns = false) ∧
      ("Payment block was removed before goods receipt"
          ∈ before_violations c ↔
        check_sequence_constraint (get_activity_names c)
          goods_receipt_patterns payment_block_removed_patterns = false) ∧
      "Missing payment block activity"
        ∉ (check_3way_before_compliance c).2 ∧
      "Payment block was removed before it was set"
        ∉ (check_3way_before_compliance c).2 ∧
      ∀ v ∈ (check_3way_before_compliance c).2,
        v ∈ ["Compliant",
             "Missing goods receipt activity",
             "Missing invoice receipt activity",
             "GR-based invoice verification flag is not set to false",
             "Goods receipt flag is not set to true",
             "Payment block was not removed, which is not allowed",
             "Payment block was removed before goods receipt",
             "No invoice receipts found for value validation",
             "No goods receipts found for value validation",
             "Number of goods receipts does not equal number of invoice receipts",
             "No cumulative values found for validation",
             "PO item value does not match expected value from invoice receipts",
             "PO item value is zero, which may indicate invalid data",
             "Cumulative value is zero but PO item value is non-zero"] := by
  intro c
  have hnv1 : "Payment block was not removed, which is not allowed"
      ∉ check_3way_value_compliance c := by
    intro hh
    have := mem_check_3way_value_compliance hh
    simp at this
  have hnv2 : "Payment block was removed before goods receipt"
      ∉ check_3way_value_compliance c := by
    intro hh
    have := mem_check_3way_value_compliance hh
    simp at this
  refine ⟨?_, ?_, ?_, ?_, ?_⟩
  · simp only [before_violations, List.mem_append, mem_ite_nil_iff,
      List.mem_singleton]
    simp [hnv1]
  · simp only [before_violations, List.mem_append, mem_ite_nil_iff,
      List.mem_singleton]
    simp [hnv2]
  · intro h
    rcases mem_verdict_of h with h | h
    · simp at h
    · rcases mem_before_violations h with h | h
      · simp at h
      · have := mem_check_3way_value_compliance h
        simp at this
  · intro h
    rcases mem_verdict_of h with h | h
    · simp at h
    · rcases mem_before_violations h with h | h
      · simp at h
      · have := mem_check_3way_value_compliance h
        simp at this
  · intro v hv
    rcases mem_verdict_of hv with rfl | hv
    · simp
    · rcases mem_before_violations hv with h | h
      · simp only [List.mem_cons, List.not_mem_nil, or_false] at h ⊢
        aesop
      · have := mem_check_3way_value_compliance h
        simp only [List.mem_cons, List.not_mem_nil, or_false] at this ⊢
        aesop

/-- Witness for C5: the empty case's verdict carries
"Missing goods receipt activity", which lies in the fixed violation set. -/
theorem before_payment_block_checks_witness :
    "Missing goods receipt activity"
      ∈ ["Compliant",
          "Missing goods receipt activity",
          "Missing invoice receipt activity",
          "GR-based invoice verification flag is not set to false",
          "Goods receipt flag is not set to true",
          "Payment block was not removed, which is not allowed",
          "Payment block was removed before goods receipt",
          "No invoice receipts found for value validation",
          "No goods receipts found for value validation",
          "Number of goods receipts does not equal number of invoice receipts",
          "No cumulative values found for validation",
          "PO item value does not match expected value from invoice receipts",
          "PO item value is zero, which may indicate invalid data",
          "Cumulative value is zero but PO item value is non-zero"] :=
  (before_payment_block_checks sample_case).2.2.2.2
    "Missing goods receipt activity" (by decide)

/-- C10: case-attribute lookup is exact and case-sensitive.  The 3_way_after
checker reads the capital-B key "GR-Based Inv. Verif." while the other
checkers read the lowercase-b key "GR-based Inv. Verif.", so a case whose
attributes hold only the lowercase key takes the default "true" under
3_way_after and its verification-flag violation is never emitted,
regardless of the stored value; the concrete lowercase-key case triggers
the 3_way_before flag violation but not the 3_way_after one. -/
theorem gr_flag_key_case_sensitivity :
    (∀ c : Case,
      (c.attributes.lookup "GR-based Inv. Verif.").isSome = true →
      c.attributes.lookup "GR-Based Inv. Verif." = none →
      "GR-based invoice verification flag is not set to true"
        ∉ (check_3way_after_compliance c).2) ∧
    "GR-based invoice verification flag is not set to false"
      ∈ (check_3way_before_compliance lowercase_key_case).2 ∧
    "GR-based invoice verification flag is not set to true"
      ∉ (check_3way_after_compliance lowercase_key_case).2 := by
  refine ⟨?_, by decide, by decide⟩
  intro c _ hnone h
  rcases mem_verdict_of h with h | h
  · simp at h
  · have hval : "GR-based invoice verification flag is not set to true"
        ∉ check_3way_value_compliance c := by
      intro hh
      have := mem_check_3way_value_compliance hh
      simp at this
    have hflag : attr_flag (get_case_attributes c) "GR-Based Inv. Verif."
        "true" = "true".data := by
      have hlow : lowerChars "true" = "true".data := by decide
      simp [attr_flag, get_case_attributes, hnone, pyStr, hlow]
    simp only [after_violations, List.mem_append, mem_ite_nil_iff,
      List.mem_singleton] at h
    simp [hval, hflag] at h

/-- Witness for C10: the lowercase-key case instantiates the universal
part. -/
theorem gr_flag_key_case_sensitivity_witness :
    "GR-based invoice verification flag is not set to true"
      ∉ (check_3way_after_compliance lowercase_key_case).2 :=
  gr_flag_key_case_sensitivity.1 lowercase_key_case (by decide) (by decide)

/-- C9: the division `final_cumulative_value / invoice_count` in
`check_3way_value_compliance` is reached only after the
`invoice_count == 0` branch has returned, so the `qdiv?`-guarded variant
never fails and agrees with the unguarded function on every case. -/
theorem value_compliance_division_safe (c : Case) :
    check_3way_value_compliance_checked c
      = some (check_3way_value_compliance c) := by
  simp only [check_3way_value_compliance_checked, check_3way_value_compliance,
    qdiv?]
  by_cases h1 : count_activity_occurrences (get_activity_names c)
    invoice_receipt_patterns = 0
  · simp [h1]
  · simp only [if_neg h1]
    split_ifs <;> rfl

theorem filter_step_counts (checker : Case → Bool × List String)
    (acc : List Case × List Case × ComplianceStats) (c : Case) :
    ((filter_step checker acc c).2.2.compliant_cases
        + (filter_step checker acc c).2.2.non_compliant_cases
      = acc.2.2.compliant_cases + acc.2.2.non_compliant_cases + 1) ∧
    (filter_step checker acc c).2.2.total_cases = acc.2.2.total_cases := by
  obtain ⟨comp, noncomp, t, cc, nc, cr, ncr⟩ := acc
  rcases hcc : checker c with ⟨b, reasons⟩
  simp only [filter_step, hcc]
  cases b <;> simp <;> omega

theorem foldl_filter_step_counts (checker : Case → Bool × List String)
    (l : List Case) :
    ∀ acc : List Case × List Case × ComplianceStats,
      ((l.foldl (filter_step checker) acc).2.2.compliant_cases
          + (l.foldl (filter_step checker) acc).2.2.non_compliant_cases
        = acc.2.2.compliant_cases + acc.2.2.non_compliant_cases + l.length) ∧
      (l.foldl (filter_step checker) acc).2.2.total_cases
        = acc.2.2.total_cases := by
  induction l with
  | nil => intro acc; simp
  | cons c t ih =>
    intro acc
    rw [List.foldl_cons]
    obtain ⟨ih1, ih2⟩ := ih (filter_step checker acc c)
    obtain ⟨s1, s2⟩ := filter_step_counts checker acc c
    refine ⟨?_, ih2.trans s2⟩
    rw [ih1, s1, List.length_cons]
    omega

/-- C1 (amended): for every log and every category string outside the four
recognized names, `filter_compliance_by_category` raises nothing — the
dispatch lookup misses and the function returns the input log as the
"compliant" component, an empty log, and statistics with zero compliant
and zero non-compliant counts.  (The source has no `UnknownCategoryError`;
it logs an error and returns.) -/
theorem unknown_category_returns_input :
    ∀ (log : List Case) (category_name : String),
      category_name ∉ ["3_way_after", "3_way_before", "2_way", "consignment"] →
      filter_compliance_by_category log category_name =
        (log, [],
         { total_cases := log.length, compliant_cases := 0,
           non_compliant_cases := 0, compliance_reasons := [],
           non_compliance_reasons := [] }) := by
  intro log category_name h
  simp only [List.mem_cons, List.not_mem_nil, or_false, not_or] at h
  obtain ⟨h1, h2, h3, h4⟩ := h
  simp only [filter_compliance_by_category, compliance_checkers,
    if_neg h1, if_neg h2, if_neg h3, if_neg h4]

/-- Counterexample to C1 as stated: evaluating the unknown category
"4_way" does not fail with `UnknownCategoryError` (no such error exists in
the code); the dispatch yields `none` and the call returns normally with
the input log and untouched statistics. -/
theorem unknown_category_no_error_counterexample :
    compliance_checkers "4_way" = none ∧
    filter_compliance_by_category [sample_case] "4_way" =
      ([sample_case], [],
       { total_cases := 1, compliant_cases := 0, non_compliant_cases := 0,
         compliance_reasons := [], non_compliance_reasons := [] }) :=
  ⟨rfl, rfl⟩

/-- Witness for C1 (amended): the concrete unknown category "4_way" on a
one-case log. -/
theorem unknown_category_returns_input_witness :
    filter_compliance_by_category [sample_case] "4_way" =
      ([sample_case], [],
       { total_cases := [sample_case].length, compliant_cases := 0,
         non_compliant_cases := 0, compliance_reasons := [],
         non_compliance_reasons := [] }) :=
  unknown_category_returns_input [sample_case] "4_way" (by decide)

/-- C8 (amended): for every input log and every recognized category, the
statistics satisfy compliant + non_compliant = total and total equals the
number of cases in the log.  (For an unrecognized category the source
returns the initial statistics untouched, so both counters stay 0 while
total is the log length.) -/
theorem compliance_stats_partition :
    ∀ (log : List Case) (category_name : String),
      (compliance_checkers category_name).isSome = true →
      (filter_compliance_by_category log category_name).2.2.compliant_cases
          + (filter_compliance_by_category log
              category_name).2.2.non_compliant_cases
        = (filter_compliance_by_category log category_name).2.2.total_cases ∧
      (filter_compliance_by_category log category_name).2.2.total_cases
        = log.length := by
  intro log category_name h
  obtain ⟨checker, hch⟩ := Option.isSome_iff_exists.mp h
  simp only [filter_compliance_by_category, hch]
  obtain ⟨h1, h2⟩ := foldl_filter_step_counts checker log
    ([], [],
     { total_cases := log.length, compliant_cases := 0,
       non_compliant_cases := 0, compliance_reasons := [],
       non_compliance_reasons := [] })
  refine ⟨?_, ?_⟩
  · rw [h1, h2]
    simp
  · rw [h2]

/-- Counterexample to C8 as stated: with the unrecognized category "4_way"
and a one-case log, total_cases is 1 while compliant and non-compliant
counts are both 0, so their sum is not the total. -/
theorem compliance_stats_partition_counterexample :
    ¬((filter_compliance_by_category [sample_case] "4_way").2.2.compliant_cases
        + (filter_compliance_by_category [sample_case]
            "4_way").2.2.non_compliant_cases
      = (filter_compliance_by_category [sample_case]
          "4_way").2.2.total_cases) := by
  decide

/-- Witness for C8 (amended): the consignment category on a one-case log. -/
theorem compliance_stats_partition_witness :
    (filter_compliance_by_category [sample_case]
          "consignment").2.2.compliant_cases
        + (filter_compliance_by_category [sample_case]
            "consignment").2.2.non_compliant_cases
      = (filter_compliance_by_category [sample_case]
          "consignment").2.2.total_cases ∧
    (filter_compliance_by_category [sample_case] "consignment").2.2.total_cases
      = [sample_case].length :=
  compliance_stats_partition [sample_case] "consignment" rfl

theorem check_3way_value_compliance_cases (c : Case) :
    (count_activity_occurrences (get_activity_names c)
        invoice_receipt_patterns = 0 →
      check_3way_value_compliance c
        = ["No invoice receipts found for value validation"]) ∧
    (count_activity_occurrences (get_activity_names c)
        invoice_receipt_patterns ≠ 0 →
      count_activity_occurrences (get_activity_names c)
        goods_receipt_patterns = 0 →
      check_3way_value_compliance c
        = ["No goods receipts found for value validation"]) ∧
    (count_activity_occurrences (get_activity_names c)
        invoice_receipt_patterns ≠ 0 →
      count_activity_occurrences (get_activity_names c)
        goods_receipt_patterns ≠ 0 →
      get_cumulative_values c = [] →
      check_3way_value_compliance c
        = (if count_activity_occurrences (get_activity_names c)
              goods_receipt_patterns
            ≠ count_activity_occurrences (get_activity_names c)
              invoice_receipt_patterns then
            ["Number of goods receipts does not equal number of invoice receipts"]
          else []) ++ ["No cumulative values found for validation"]) ∧
    (count_activity_occurrences (get_activity_names c)
        invoice_receipt_patterns ≠ 0 →
      count_activity_occurrences (get_activity_names c)
        goods_receipt_patterns ≠ 0 →
      get_cumulative_values c ≠ [] →
      (("Number of goods receipts does not equal number of invoice receipts"
          ∈ check_3way_value_compliance c ↔
        count_activity_occurrences (get_activity_names c)
            goods_receipt_patterns
          ≠ count_activity_occurrences (get_activity_names c)
            invoice_receipt_patterns) ∧
       ("PO item value does not match expected value from invoice receipts"
          ∈ check_3way_value_compliance c ↔
        |get_po_item_value c - (get_cumulative_values c).getLastD 0
            / (count_activity_occurrences (get_activity_names c)
                invoice_receipt_patterns : ℚ)| > 1 / 100) ∧
       ("PO item value is zero, which may indicate invalid data"
          ∈ check_3way_value_compliance c ↔ get_po_item_value c = 0) ∧
       ("Cumulative value is zero but PO item value is non-zero"
          ∈ check_3way_value_compliance c ↔
        ((get_cumulative_values c).getLastD 0 = 0 ∧
          get_po_item_value c ≠ 0)))) := by
  refine ⟨fun h1 => ?_, fun h1 h2 => ?_, fun h1 h2 h3 => ?_,
    fun h1 h2 h3 => ?_⟩
  · simp [check_3way_value_compliance, h1]
  · simp [check_3way_value_compliance, h1, h2]
  · simp [check_3way_value_compliance, h1, h2, h3]
  · have hE : ¬((get_cumulative_values c).isEmpty = true) := by
      simpa [List.isEmpty_iff] using h3
    have hpos : 0 < count_activity_occurrences (get_activity_names c)
        invoice_receipt_patterns := Nat.pos_of_ne_zero h1
    simp only [check_3way_value_compliance]
    rw [if_neg h1, if_neg h2, if_neg hE]
    refine ⟨?_, ?_, ?_, ?_⟩ <;>
      simp [List.mem_append, mem_ite_nil_iff, hpos]

/-- C4: the 3-way value-consistency sub-check returns the single
no-invoice-receipts violation when the invoice count is 0, the single
no-goods-receipts violation when the goods-receipt count is 0, stops after
the count-mismatch check when no cumulative values exist, and otherwise
flags count mismatch, `|po_item_value - final_cumulative_value /
invoice_count| > 0.01`, `po_item_value == 0`, and
`final_cumulative_value == 0 and po_item_value != 0`; concretely, with two
invoice receipts, two goods receipts and final cumulative value 100, a PO
item value of 50 yields no expected-value violation and 51 yields one. -/
theorem value_compliance_branches :
    (∀ c : Case,
      (count_activity_occurrences (get_activity_names c)
          invoice_receipt_patterns = 0 →
        check_3way_value_compliance c
          = ["No invoice receipts found for value validation"]) ∧
      (count_activity_occurrences (get_activity_names c)
          invoice_receipt_patterns ≠ 0 →
        count_activity_occurrences (get_activity_names c)
          goods_receipt_patterns = 0 →
        check_3way_value_compliance c
          = ["No goods receipts found for value validation"]) ∧
      (count_activity_occurrences (get_activity_names c)
          invoice_receipt_patterns ≠ 0 →
        count_activity_occurrences (get_activity_names c)
          goods_receipt_patterns ≠ 0 →
        get_cumulative_values c = [] →
        check_3way_value_compliance c
          = (if count_activity_occurrences (get_activity_names c)
                goods_receipt_patterns
              ≠ count_activity_occurrences (get_activity_names c)
                invoice_receipt_patterns then
              ["Number of goods receipts does not equal number of invoice receipts"]
            else []) ++ ["No cumulative values found for validation"]) ∧
      (count_activity_occurrences (get_activity_names c)
          invoice_receipt_patterns ≠ 0 →
        count_activity_occurrences (get_activity_names c)
          goods_receipt_patterns ≠ 0 →
        get_cumulative_values c ≠ [] →
        (("Number of goods receipts does not equal number of invoice receipts"
            ∈ check_3way_value_compliance c ↔
          count_activity_occurrences (get_activity_names c)
              goods_receipt_patterns
            ≠ count_activity_occurrences (get_activity_names c)
              invoice_receipt_patterns) ∧
         ("PO item value does not match expected value from invoice receipts"
            ∈ check_3way_value_compliance c ↔
          |get_po_item_value c - (get_cumulative_values c).getLastD 0
              / (count_activity_occurrences (get_activity_names c)
                  invoice_receipt_patterns : ℚ)| > 1 / 100) ∧
         ("PO item value is zero, which may indicate invalid data"
            ∈ check_3way_value_compliance c ↔ get_po_item_value c = 0) ∧
         ("Cumulative value is zero but PO item value is non-zero"
            ∈ check_3way_value_compliance c ↔
          ((get_cumulative_values c).getLastD 0 = 0 ∧
            get_po_item_value c ≠ 0))))) ∧
    "PO item value does not match expected value from invoice receipts"
      ∉ check_3way_value_compliance (value_case 50) ∧
    "PO item value does not match expected value from invoice receipts"
      ∈ check_3way_value_compliance (value_case 51) := by
  refine ⟨check_3way_value_compliance_cases, ?_, ?_⟩
  · have hiff := ((check_3way_value_compliance_cases (value_case 50)).2.2.2
      (by decide) (by decide) (by decide)).2.1
    rw [hiff]
    have e1 : get_po_item_value (value_case 50) = 50 := rfl
    have e2 : (get_cumulative_values (value_case 50)).getLastD 0 = 100 := rfl
    have e3 : count_activity_occurrences (get_activity_names (value_case 50))
        invoice_receipt_patterns = 2 := by decide
    rw [e1, e2, e3]
    norm_num
  · have hiff := ((check_3way_value_compliance_cases (value_case 51)).2.2.2
      (by decide) (by decide) (by decide)).2.1
    rw [hiff]
    have e1 : get_po_item_value (value_case 51) = 51 := rfl
    have e2 : (get_cumulative_values (value_case 51)).getLastD 0 = 100 := rfl
    have e3 : count_activity_occurrences (get_activity_names (value_case 51))
        invoice_receipt_patterns = 2 := by decide
    rw [e1, e2, e3]
    norm_num

/-- Witness for C4: the empty case takes the no-invoice-receipts branch,
and the cumulative-free two-activity case stops at the
no-cumulative-values violation. -/
theorem value_compliance_branches_witness :
    check_3way_value_compliance sample_case
      = ["No invoice receipts found for value validation"] ∧
    check_3way_value_compliance consignment_case
      = (if count_activity_occurrences (get_activity_names consignment_case)
            goods_receipt_patterns
          ≠ count_activity_occurrences (get_activity_names consignment_case)
            invoice_receipt_patterns then
          ["Number of goods receipts does not equal number of invoice receipts"]
        else []) ++ ["No cumulative values found for validation"] :=
  ⟨(value_compliance_branches.1 sample_case).1 (by decide),
   (value_compliance_branches.1 consignment_case).2.2.1 (by decide)
     (by decide) (by decide)⟩

end ComplianceFilter
